import Mathlib

/-!
# Verification of the Bot-Catalog schema & repository manager

Shallow embedding of `src/db_project/logic.py`. The file defines three
classes: `DatabaseManager` (lines 8-115) and two identical copies of
`DB_Manager` (lines 120-154 and 162-301; the second shadows the first and
is the one all DML claims cite). We model:

* the DDL layer (`create_tables` of both classes) as lists of statements
  executed against a schema state (the set of existing table names);
* the DML layer (the `DB_Manager` operations) as pure functions over a
  `DBState` holding the four `DB_Manager` tables as row lists.

SQLite semantics captured here:
* `INTEGER PRIMARY KEY` is a rowid alias: an insert that omits it gets
  `max(existing rowid) + 1` (1 on an empty table), and full-table scans
  return rows in rowid order (list order, since ids only grow);
* `INSERT OR IGNORE` skips a row only on a uniqueness-constraint
  conflict; the `DB_Manager` schema declares no UNIQUE constraints and
  the only PRIMARY KEYs are the auto-assigned rowid aliases, so the
  conflict test is against the (always fresh) primary key;
* `NULL = x` is never true in SQL comparisons (`sqlEq`);
* a Python method that raises is modelled as `Except.error`; the scoped
  `with conn:` block rolls back on exception, so an error result means
  the database state is unchanged (no new state is produced);
* Python name errors: `ValueError("Project not found")` etc. keep their
  message strings; `sqlite3.OperationalError` is raised by `CREATE TABLE`
  on an existing table.
-/

/-- An SQLite storage value as used by this schema (NULL, INTEGER, TEXT). -/
inductive SQLVal where
  | null
  | int (i : Int)
  | text (s : String)
deriving DecidableEq, Repr

/-- SQL `=` comparison: NULL compares false against everything (including
NULL); values of distinct storage classes compare false. -/
def sqlEq : SQLVal → SQLVal → Bool
  | .null, _ => false
  | _, .null => false
  | .int a, .int b => a == b
  | .text a, .text b => a == b
  | .int _, .text _ => false
  | .text _, .int _ => false

/-- Exceptions the Python code can raise, by Python class. -/
inductive PyError where
  | valueError (msg : String)
  | operationalError (msg : String)
  | integrityError
  | typeError
deriving DecidableEq, Repr

/-- A row of `skills` (logic.py lines 178-181): `skill_id INTEGER PRIMARY
KEY, skill_name TEXT` — note `skill_name` has no NOT NULL and no UNIQUE. -/
structure SkillRow where
  skill_id : Int
  skill_name : SQLVal
deriving DecidableEq, Repr

/-- A row of `status` (logic.py lines 188-191): `status_id INTEGER PRIMARY
KEY, status_name TEXT` — no UNIQUE constraint on `status_name`. -/
structure StatusRow where
  status_id : Int
  status_name : SQLVal
deriving DecidableEq, Repr

/-- A row of `projects` (logic.py lines 169-177). `project_id` is the
INTEGER PRIMARY KEY; `project_name` is declared NOT NULL. -/
structure ProjectRow where
  project_id : Int
  user_id : SQLVal
  project_name : SQLVal
  description : SQLVal
  url : SQLVal
  status_id : SQLVal
deriving DecidableEq, Repr

/-- A row of `project_skills` (logic.py lines 182-187): two plain INTEGER
columns with foreign keys but no PRIMARY KEY and no UNIQUE constraint. -/
structure ProjectSkillRow where
  project_id : SQLVal
  skill_id : SQLVal
deriving DecidableEq, Repr

/-- The state of the four `DB_Manager` tables, each as its list of rows in
rowid order. -/
structure DBState where
  projects : List ProjectRow
  skills : List SkillRow
  project_skills : List ProjectSkillRow
  status : List StatusRow
deriving DecidableEq, Repr

/-- A fresh database right after `DB_Manager.create_tables()`. -/
def emptyDB : DBState := ⟨[], [], [], []⟩

/-- Auto-assigned rowid for an insert omitting the INTEGER PRIMARY KEY
column: one more than the largest existing id (1 on an empty table). -/
def nextId (ids : List Int) : Int := ids.foldl max 0 + 1

/-! ## DDL layer: the two `create_tables` variants -/

/-- A DDL-level statement executed by one of the `create_tables` bodies. -/
inductive DDLStmt where
  | pragmaForeignKeysOn
  | createTable (tname : String) (ifNotExists : Bool)
deriving DecidableEq, Repr

/-- The statements `DatabaseManager.create_tables` executes, in order
(logic.py lines 56-61): the foreign-key pragma, then the three
`CREATE TABLE IF NOT EXISTS` statements. -/
def DatabaseManager_create_tables : List DDLStmt :=
  [.pragmaForeignKeysOn,
   .createTable "users" true,
   .createTable "status" true,
   .createTable "projects" true]

/-- The statements `DB_Manager.create_tables` executes, in order
(logic.py lines 124-150 and identically 166-192): four plain
`CREATE TABLE` statements, no pragma, no IF NOT EXISTS. -/
def DB_Manager_create_tables : List DDLStmt :=
  [.createTable "projects" false,
   .createTable "skills" false,
   .createTable "project_skills" false,
   .createTable "status" false]

/-- Run one DDL statement against the schema state (the list of existing
table names). `CREATE TABLE t` raises `sqlite3.OperationalError` when `t`
already exists; with IF NOT EXISTS it is a no-op instead. -/
def runStmt (tabs : List String) (s : DDLStmt) : Except PyError (List String) :=
  match s with
  | .pragmaForeignKeysOn => .ok tabs
  | .createTable n ifNotExists =>
    if n ∈ tabs then
      if ifNotExists then .ok tabs
      else .error (.operationalError ("table " ++ n ++ " already exists"))
    else .ok (tabs ++ [n])

/-- Run a `create_tables` body: execute its statements in order, stopping
at the first error (the `with conn:` block re-raises it). -/
def runStmts : List DDLStmt → List String → Except PyError (List String)
  | [], tabs => .ok tabs
  | s :: rest, tabs =>
    match runStmt tabs s with
    | .ok tabs' => runStmts rest tabs'
    | .error e => .error e

/-- `true` exactly on table-creation DDL statements. -/
def DDLStmt.isCreateTable : DDLStmt → Bool
  | .createTable _ _ => true
  | _ => false

/-- A statement list enables foreign-key enforcement before any DDL when
every `CREATE TABLE` in it is preceded by the foreign-key pragma. -/
abbrev fkEnabledBeforeDDL (l : List DDLStmt) : Prop :=
  ∀ i : Fin l.length, (l.get i).isCreateTable = true →
    DDLStmt.pragmaForeignKeysOn ∈ l.take i.val

/-! ## DML layer: `DB_Manager` operations (logic.py lines 162-297) -/

/-- The module-level `skills` seed list (logic.py line 159). -/
def skillsSeed : List String := ["Python", "SQL", "API", "Discord"]

/-- The module-level `statuses` seed list (logic.py line 160). -/
def statusesSeed : List String :=
  ["Pembuatan Prototipe", "Dalam Pengembangan", "Selesai, siap digunakan",
   "Diperbarui", "Selesai, tapi tidak sedang dilanjutkan"]

/-- One parameter set of `INSERT OR IGNORE INTO skills (skill_name)
values(?)`: the rowid is auto-assigned; OR IGNORE drops the row only on a
primary-key conflict (the sole constraint the table declares). -/
def insertOrIgnoreSkillRow (db : DBState) (name : SQLVal) : DBState :=
  let id := nextId (db.skills.map (·.skill_id))
  if db.skills.any (fun s => s.skill_id == id) then db
  else { db with skills := db.skills ++ [⟨id, name⟩] }

/-- One parameter set of `INSERT OR IGNORE INTO status (status_name)
values(?)`, analogous to `insertOrIgnoreSkillRow`. -/
def insertOrIgnoreStatusRow (db : DBState) (name : SQLVal) : DBState :=
  let id := nextId (db.status.map (·.status_id))
  if db.status.any (fun s => s.status_id == id) then db
  else { db with status := db.status ++ [⟨id, name⟩] }

/-- `DB_Manager.default_insert` (logic.py lines 207-213): executemany the
skills seed, then executemany the statuses seed. -/
def default_insert (db : DBState) : DBState :=
  let db1 := skillsSeed.foldl (fun d n => insertOrIgnoreSkillRow d (.text n)) db
  statusesSeed.foldl (fun d n => insertOrIgnoreStatusRow d (.text n)) db1

/-- One parameter set of `INSERT INTO projects (user_id, project_name,
description, url, status_id) VALUES (?, ?, ?, ?, ?)`: the rowid is
auto-assigned; a NULL `project_name` violates NOT NULL and raises
`sqlite3.IntegrityError`. Foreign keys are declared but never enforced:
`DB_Manager` opens its connections without the foreign-key pragma. -/
def insertProjectRow (db : DBState)
    (t : SQLVal × SQLVal × SQLVal × SQLVal × SQLVal) : Except PyError DBState :=
  let (uid, name, desc, url, sid) := t
  if name == .null then .error .integrityError
  else .ok { db with projects :=
    db.projects ++ [⟨nextId (db.projects.map (·.project_id)), uid, name, desc, url, sid⟩] }

/-- `DB_Manager.insert_project` (logic.py lines 216-219): executemany over
the data tuples; on error the `with conn:` block rolls the batch back. -/
def insert_project (data : List (SQLVal × SQLVal × SQLVal × SQLVal × SQLVal))
    (db : DBState) : Except PyError DBState :=
  data.foldlM insertProjectRow db

/-- Row predicate of `WHERE project_name = ? AND user_id = ?`
(logic.py lines 223 and 258). -/
def projectNameUserMatch (project_name : String) (user_id : Int)
    (r : ProjectRow) : Bool :=
  sqlEq r.project_name (.text project_name) && sqlEq r.user_id (.int user_id)

/-- `DB_Manager.insert_skill` (logic.py lines 222-234): resolve the project
by `(project_name, user_id)` (raise `ValueError("Project not found")` on no
row), resolve the skill by name (raise `ValueError("Skill not found")`),
then `INSERT OR IGNORE INTO project_skills` — a table with no PRIMARY KEY
and no UNIQUE constraint, so no conflict is possible and the row is always
appended. -/
def insert_skill (user_id : Int) (project_name : String) (skill : String)
    (db : DBState) : Except PyError DBState :=
  match db.projects.find? (projectNameUserMatch project_name user_id) with
  | none => .error (.valueError "Project not found")
  | some p =>
    match db.skills.find? (fun s => sqlEq s.skill_name (.text skill)) with
    | none => .error (.valueError "Skill not found")
    | some s =>
      .ok { db with project_skills :=
        db.project_skills ++ [⟨.int p.project_id, .int s.skill_id⟩] }

/-- `DB_Manager.get_statuses` (logic.py lines 237-239):
`SELECT status_id, status_name FROM status`. -/
def get_statuses (db : DBState) : List (Int × SQLVal) :=
  db.status.map (fun s => (s.status_id, s.status_name))

/-- `DB_Manager.get_status_id` (logic.py lines 242-246): first matching
`status_id`, or `None` when no row matches — it never raises. -/
def get_status_id (status_name : String) (db : DBState) : Option Int :=
  match db.status.find? (fun s => sqlEq s.status_name (.text status_name)) with
  | some s => some s.status_id
  | none => none

/-- `DB_Manager.get_project_id` (logic.py lines 257-261): first matching
`project_id`, or `ValueError("Project not found")` when no row matches. -/
def get_project_id (project_name : String) (user_id : Int)
    (db : DBState) : Except PyError Int :=
  match db.projects.find? (projectNameUserMatch project_name user_id) with
  | some p => .ok p.project_id
  | none => .error (.valueError "Project not found")

/-- `DB_Manager.get_skills` (logic.py lines 263-264): `SELECT * FROM skills`. -/
def get_skills (db : DBState) : List SkillRow := db.skills

/-- The `skill_name` column of the three-way join of
`DB_Manager.get_project_skills` (logic.py lines 267-270): skills linked
through `project_skills` to projects whose `project_name` matches. -/
def projectSkillNames (project_name : String) (db : DBState) : List SQLVal :=
  (db.projects.filter (fun p => sqlEq p.project_name (.text project_name))).flatMap
    (fun p => (db.project_skills.filter
        (fun ps => sqlEq ps.project_id (.int p.project_id))).flatMap
      (fun ps => (db.skills.filter
          (fun s => sqlEq (.int s.skill_id) ps.skill_id)).map (·.skill_name)))

/-- `', '.join(...)` over the fetched column: succeeds exactly when every
joined value is a Python `str` (a non-text value raises `TypeError`). -/
def joinComma (vals : List SQLVal) : Except PyError String :=
  match vals.mapM (fun v => match v with | .text s => some s | _ => none) with
  | some names => .ok (String.intercalate ", " names)
  | none => .error .typeError

/-- `DB_Manager.get_project_skills` (logic.py lines 266-271): comma-join
the skill names of the matching projects' associations. -/
def get_project_skills (project_name : String) (db : DBState) :
    Except PyError String :=
  joinComma (projectSkillNames project_name db)

/-- The allow-list of `DB_Manager.update_projects` (logic.py line 284). -/
def allowedCols : List String := ["project_name", "description", "url", "status_id"]

/-- Write one updatable column of a project row. -/
def setCol (param : String) (v : SQLVal) (r : ProjectRow) : ProjectRow :=
  if param = "project_name" then { r with project_name := v }
  else if param = "description" then { r with description := v }
  else if param = "url" then { r with url := v }
  else if param = "status_id" then { r with status_id := v }
  else r

/-- Read one updatable column of a project row. -/
def getCol (param : String) (r : ProjectRow) : SQLVal :=
  if param = "project_name" then r.project_name
  else if param = "description" then r.description
  else if param = "url" then r.url
  else if param = "status_id" then r.status_id
  else .null

/-- Row predicate of `WHERE user_id = ? AND project_id = ?`
(logic.py lines 287 and 292). -/
def userProjectMatch (user_id project_id : Int) (r : ProjectRow) : Bool :=
  sqlEq r.user_id (.int user_id) && sqlEq (.int r.project_id) (.int project_id)

/-- `DB_Manager.update_projects` (logic.py lines 283-288): raise
`ValueError("Invalid column")` before touching the database when the column
is not allow-listed; otherwise `UPDATE projects SET {param} = ? WHERE
user_id = ? AND project_id = ?` with `data = (new_value, user_id,
project_id)`. Setting `project_name` to NULL on a row that is actually
updated violates its NOT NULL constraint (`sqlite3.IntegrityError`, rolled
back by the `with conn:` block). -/
def update_projects (param : String) (data : SQLVal × Int × Int)
    (db : DBState) : Except PyError DBState :=
  if param ∈ allowedCols then
    let (v, uid, pid) := data
    if param = "project_name" ∧ v = .null ∧
        db.projects.any (userProjectMatch uid pid) = true then
      .error .integrityError
    else
      let f := fun r => if userProjectMatch uid pid r then setCol param v r else r
      .ok { db with projects := db.projects.map f }
  else .error (.valueError "Invalid column")

/-- `DB_Manager.delete_project` (logic.py lines 291-293): `DELETE FROM
projects WHERE user_id = ? AND project_id = ?`; keeps the non-matching
rows, never raises. -/
def delete_project (user_id project_id : Int) (db : DBState) : DBState :=
  { db with projects :=
      db.projects.filter (fun r => !userProjectMatch user_id project_id r) }

/-- `DB_Manager.delete_skill` (logic.py lines 295-297): `DELETE FROM
project_skills WHERE project_id = ? AND skill_id = ?`. -/
def delete_skill (project_id skill_id : Int) (db : DBState) : DBState :=
  let keep := fun (ps : ProjectSkillRow) =>
    !(sqlEq ps.project_id (.int project_id) && sqlEq ps.skill_id (.int skill_id))
  { db with project_skills := db.project_skills.filter keep }

/-! ## Generic infrastructure for the theorems -/

/-- Decidable equality of `Except` results, used to evaluate concrete runs. -/
instance {e a : Type} [DecidableEq e] [DecidableEq a] : DecidableEq (Except e a)
  | .ok x, .ok y =>
    match decEq x y with
    | isTrue h => isTrue (by rw [h])
    | isFalse h => isFalse (by intro hc; cases hc; exact h rfl)
  | .error x, .error y =>
    match decEq x y with
    | isTrue h => isTrue (by rw [h])
    | isFalse h => isFalse (by intro hc; cases hc; exact h rfl)
  | .ok _, .error _ => isFalse (by intro hc; cases hc)
  | .error _, .ok _ => isFalse (by intro hc; cases hc)

/-- The database state right after `create_tables()` plus one
`default_insert()` — the standard setup sequence of the repository. -/
def seededDB : DBState := default_insert emptyDB

/-! ## DDL lemmas -/

/-- Effect of a single `CREATE TABLE IF NOT EXISTS` on the table list. -/
def addIfAbsent (tabs : List String) (n : String) : List String :=
  if n ∈ tabs then tabs else tabs ++ [n]

lemma runStmt_createIfNotExists (tabs : List String) (n : String) :
    runStmt tabs (.createTable n true) = .ok (addIfAbsent tabs n) := by
  simp only [runStmt, addIfAbsent]
  split <;> simp

lemma mem_addIfAbsent_self (tabs : List String) (n : String) :
    n ∈ addIfAbsent tabs n := by
  unfold addIfAbsent
  split
  · assumption
  · simp

lemma mem_addIfAbsent_of_mem (tabs : List String) (n m : String)
    (h : m ∈ tabs) : m ∈ addIfAbsent tabs n := by
  unfold addIfAbsent
  split
  · exact h
  · simp [h]

lemma addIfAbsent_of_mem (tabs : List String) (n : String) (h : n ∈ tabs) :
    addIfAbsent tabs n = tabs := if_pos h

lemma runStmts_create_ine (ns : List String) (tabs : List String) :
    runStmts (ns.map (fun n => DDLStmt.createTable n true)) tabs =
      .ok (ns.foldl addIfAbsent tabs) := by
  induction ns generalizing tabs with
  | nil => rfl
  | cons n t ih =>
    simp only [List.map_cons, runStmts, runStmt_createIfNotExists, List.foldl_cons]
    exact ih (addIfAbsent tabs n)

lemma runStmts_DatabaseManager (tabs : List String) :
    runStmts DatabaseManager_create_tables tabs =
      .ok (["users", "status", "projects"].foldl addIfAbsent tabs) :=
  runStmts_create_ine ["users", "status", "projects"] tabs

lemma foldl_addIfAbsent_of_mem (ns : List String) (tabs : List String)
    (h : ∀ n ∈ ns, n ∈ tabs) : ns.foldl addIfAbsent tabs = tabs := by
  induction ns with
  | nil => rfl
  | cons n t ih =>
    rw [List.foldl_cons, addIfAbsent_of_mem tabs n (h n (by simp))]
    exact ih (fun m hm => h m (by simp [hm]))

lemma mem_foldl_addIfAbsent_of_mem (ns : List String) (tabs : List String)
    (m : String) (h : m ∈ tabs) : m ∈ ns.foldl addIfAbsent tabs := by
  induction ns generalizing tabs with
  | nil => exact h
  | cons n t ih => exact ih (addIfAbsent tabs n) (mem_addIfAbsent_of_mem tabs n m h)

lemma mem_foldl_addIfAbsent (ns : List String) (tabs : List String)
    (m : String) (h : m ∈ ns) : m ∈ ns.foldl addIfAbsent tabs := by
  induction ns generalizing tabs with
  | nil => cases h
  | cons n t ih =>
    rw [List.foldl_cons]
    rcases List.mem_cons.mp h with rfl | hm
    · exact mem_foldl_addIfAbsent_of_mem t _ m (mem_addIfAbsent_self tabs m)
    · exact ih (addIfAbsent tabs n) hm

lemma runStmt_mono (s : DDLStmt) (tabs tabs' : List String)
    (h : runStmt tabs s = .ok tabs') (m : String) (hm : m ∈ tabs) :
    m ∈ tabs' := by
  cases s with
  | pragmaForeignKeysOn =>
    simp only [runStmt] at h
    cases h; exact hm
  | createTable n ine =>
    simp only [runStmt] at h
    by_cases hn : n ∈ tabs
    · rw [if_pos hn] at h
      cases ine with
      | true => simp only [if_pos rfl] at h; cases h; exact hm
      | false => simp at h
    · rw [if_neg hn] at h
      cases h; simp [hm]

lemma runStmts_mono (l : List DDLStmt) (tabs tabs' : List String)
    (h : runStmts l tabs = .ok tabs') (m : String) (hm : m ∈ tabs) :
    m ∈ tabs' := by
  induction l generalizing tabs with
  | nil => cases h; exact hm
  | cons s rest ih =>
    unfold runStmts at h
    cases hs : runStmt tabs s with
    | ok t1 => rw [hs] at h; exact ih t1 h (runStmt_mono s tabs t1 hs m hm)
    | error e => rw [hs] at h; cases h

lemma runStmts_DB_Manager_of_mem_projects (tabs : List String)
    (h : "projects" ∈ tabs) :
    runStmts DB_Manager_create_tables tabs =
      .error (.operationalError "table projects already exists") := by
  simp [DB_Manager_create_tables, runStmts, runStmt, if_pos h]

lemma runStmts_DB_Manager_ok_mem (tabs tabs1 : List String)
    (h : runStmts DB_Manager_create_tables tabs = .ok tabs1) :
    "projects" ∈ tabs1 := by
  by_cases hp : "projects" ∈ tabs
  · rw [runStmts_DB_Manager_of_mem_projects tabs hp] at h; cases h
  · have h1 : runStmts DB_Manager_create_tables tabs =
        runStmts [.createTable "skills" false, .createTable "project_skills" false,
                  .createTable "status" false] (tabs ++ ["projects"]) := by
      simp [DB_Manager_create_tables, runStmts, runStmt, hp]
    rw [h1] at h
    exact runStmts_mono _ _ _ h _ (by simp)

/-! ## Claim C1 -/

/-- Claim C1 fails on the code: `default_insert()` is not idempotent. The
`skills` and `status` tables declare no UNIQUE constraint, so the
`INSERT OR IGNORE` of `default_insert` never has a conflict to ignore:
after one call on a fresh database the tables hold exactly the seeded
rows, but a second call appends a complete second copy of every seeded
name under fresh ids — `get_skills()` returns 8 rows (each seed name
twice) and `get_statuses()` returns 10. -/
theorem default_insert_reseed_duplicates :
    get_skills seededDB =
      [⟨1, .text "Python"⟩, ⟨2, .text "SQL"⟩, ⟨3, .text "API"⟩,
       ⟨4, .text "Discord"⟩] ∧
    (get_statuses seededDB).length = 5 ∧
    (get_skills (default_insert seededDB)).map (·.skill_name) =
      (skillsSeed ++ skillsSeed).map SQLVal.text ∧
    (get_statuses (default_insert seededDB)).map (·.2) =
      (statusesSeed ++ statusesSeed).map SQLVal.text := by
  decide

/-! ## Claim C2 -/

/-- Claim C2 is false as stated for `DB_Manager.create_tables`: on a fresh
database the first call succeeds and creates the four tables, and the
second call in succession raises `sqlite3.OperationalError` because its
`CREATE TABLE projects` lacks IF NOT EXISTS. -/
theorem DB_Manager_create_tables_second_call_raises :
    runStmts DB_Manager_create_tables [] =
      .ok ["projects", "skills", "project_skills", "status"] ∧
    runStmts DB_Manager_create_tables
        ["projects", "skills", "project_skills", "status"] =
      .error (.operationalError "table projects already exists") := by
  decide

/-- Claim C2, amended: `DatabaseManager.create_tables` (which uses
`CREATE TABLE IF NOT EXISTS`) succeeds from every starting schema and is
idempotent — calling it twice yields the same table list as calling it
once, so it is safe on a database where the tables already exist; the
`DB_Manager.create_tables` variant instead always raises on the second of
two successive calls. -/
theorem create_tables_idempotence_by_variant :
    (∀ tabs : List String, ∃ tabs1,
        runStmts DatabaseManager_create_tables tabs = .ok tabs1 ∧
        runStmts DatabaseManager_create_tables tabs1 = .ok tabs1) ∧
    (∀ tabs tabs1 : List String,
        runStmts DB_Manager_create_tables tabs = .ok tabs1 →
        runStmts DB_Manager_create_tables tabs1 =
          .error (.operationalError "table projects already exists")) := by
  constructor
  · intro tabs
    refine ⟨["users", "status", "projects"].foldl addIfAbsent tabs,
      runStmts_DatabaseManager tabs, ?_⟩
    rw [runStmts_DatabaseManager, foldl_addIfAbsent_of_mem]
    intro n hn
    exact mem_foldl_addIfAbsent _ tabs n hn
  · intro tabs tabs1 h
    exact runStmts_DB_Manager_of_mem_projects tabs1
      (runStmts_DB_Manager_ok_mem tabs tabs1 h)

/-- Witness for the amended C2 at a concrete input: after a successful
first call on the empty schema, the second call errors. -/
theorem create_tables_idempotence_by_variant_witness :
    runStmts DB_Manager_create_tables
        ["projects", "skills", "project_skills", "status"] =
      .error (.operationalError "table projects already exists") :=
  create_tables_idempotence_by_variant.2 []
    ["projects", "skills", "project_skills", "status"] (by decide)

/-! ## Claim C3 -/

/-- Claim C3 fails on the code in its second half: `project_skills` has no
uniqueness constraint, so the `INSERT OR IGNORE` of `insert_skill` never
ignores anything. With seeded skills and one project `"P"` of user 1,
calling `insert_skill(1, "P", "Python")` twice leaves two identical
`(project_id, skill_id) = (1, 1)` association rows (the claim's first
half does hold: `get_project_skills("P")` includes the skill name — here
twice, once per duplicate row). -/
theorem insert_skill_twice_duplicates_association :
    (do
      let db1 ← insert_project [(.int 1, .text "P", .null, .null, .null)] seededDB
      let db2 ← insert_skill 1 "P" "Python" db1
      let db3 ← insert_skill 1 "P" "Python" db2
      pure (db3.project_skills, get_project_skills "P" db3)) =
    .ok ([⟨.int 1, .int 1⟩, ⟨.int 1, .int 1⟩], .ok "Python, Python") := by
  decide

/-! ## Claim C9 -/

/-- Claim C9 is false as stated: `DB_Manager.create_tables` executes its
four `CREATE TABLE` statements without ever enabling foreign-key
enforcement (its statement list contains no `PRAGMA foreign_keys = ON`
at all, let alone before the DDL). -/
theorem DB_Manager_create_tables_no_fk_pragma :
    ¬ fkEnabledBeforeDDL DB_Manager_create_tables := by
  decide

/-- Claim C9, amended: `DatabaseManager.create_tables` enables foreign-key
enforcement before every table-creation statement it executes, while
`DB_Manager.create_tables` never enables it. -/
theorem fk_pragma_by_variant :
    fkEnabledBeforeDDL DatabaseManager_create_tables ∧
    DDLStmt.pragmaForeignKeysOn ∉ DB_Manager_create_tables := by
  decide

/-! ## Claim C4 -/

/-- Claim C4: for every column name outside the allow-list, regardless of
the values tuple and of the database state, `update_projects` raises
`ValueError("Invalid column")`. The raise happens before any SQL executes
(an error result carries no new state: the database is untouched). -/
theorem update_projects_invalid_column (param : String)
    (data : SQLVal × Int × Int) (db : DBState) (h : param ∉ allowedCols) :
    update_projects param data db = .error (.valueError "Invalid column") := by
  unfold update_projects
  rw [if_neg h]

/-- Witness for C4 at the spec's own example column `'bad_col'`. -/
theorem update_projects_invalid_column_witness :
    update_projects "bad_col" (.null, 1, 1) emptyDB =
      .error (.valueError "Invalid column") :=
  update_projects_invalid_column "bad_col" (.null, 1, 1) emptyDB (by decide)

/-! ## Claims C6, C7, C8, C10 -/

/-- A single-project database used to instantiate the lookup theorems. -/
def dbC6 : DBState :=
  { emptyDB with projects := [⟨1, .int 2, .text "Site", .null, .null, .null⟩] }

/-- Claim C6: `get_project_id` returns the id of the first project row
matching `(project_name, user_id)` — in particular, for a previously
inserted project that is the unique match, exactly that project's id —
and raises `ValueError("Project not found")` when no row matches. -/
theorem get_project_id_spec (db : DBState) (pname : String) (uid : Int) :
    ((∃ p ∈ db.projects, projectNameUserMatch pname uid p = true) →
      ∃ p ∈ db.projects, projectNameUserMatch pname uid p = true ∧
        get_project_id pname uid db = .ok p.project_id) ∧
    ((∀ p ∈ db.projects, projectNameUserMatch pname uid p = false) →
      get_project_id pname uid db = .error (.valueError "Project not found")) ∧
    (∀ p ∈ db.projects, projectNameUserMatch pname uid p = true →
      (∀ q ∈ db.projects, projectNameUserMatch pname uid q = true → q = p) →
      get_project_id pname uid db = .ok p.project_id) := by
  unfold get_project_id
  cases hf : db.projects.find? (projectNameUserMatch pname uid) with
  | none =>
    have hall := List.find?_eq_none.mp hf
    refine ⟨?_, ?_, ?_⟩
    · rintro ⟨p, hp, hm⟩
      exact absurd hm (hall p hp)
    · intro _
      rfl
    · intro p hp hm _
      exact absurd hm (hall p hp)
  | some r =>
    have hrmem := List.mem_of_find?_eq_some hf
    have hrp := List.find?_some hf
    refine ⟨?_, ?_, ?_⟩
    · intro _
      exact ⟨r, hrmem, hrp, rfl⟩
    · intro hall
      rw [hall r hrmem] at hrp
      cases hrp
    · intro p hp hm huniq
      rw [huniq r hrmem hrp]

/-- Witness for C6: in `dbC6` the only project is `("Site", user 2)` with
id 1; looking it up returns `.ok 1`, and a missing name raises. -/
theorem get_project_id_spec_witness :
    get_project_id "Site" 2 dbC6 = .ok 1 ∧
    get_project_id "Nope" 2 dbC6 = .error (.valueError "Project not found") :=
  ⟨(get_project_id_spec dbC6 "Site" 2).2.2
      ⟨1, .int 2, .text "Site", .null, .null, .null⟩ (by decide) (by decide)
      (by decide),
   (get_project_id_spec dbC6 "Nope" 2).2.1 (by decide)⟩

/-- Claim C7: `get_status_id` is a total function into `Option Int` — it
never raises. It returns `some` of the first matching status id when a
row with that name exists, and the `None` sentinel otherwise. -/
theorem get_status_id_total_spec (db : DBState) (name : String) :
    ((∃ s ∈ db.status, sqlEq s.status_name (.text name) = true) →
      ∃ s ∈ db.status, sqlEq s.status_name (.text name) = true ∧
        get_status_id name db = some s.status_id) ∧
    ((∀ s ∈ db.status, sqlEq s.status_name (.text name) = false) →
      get_status_id name db = none) := by
  unfold get_status_id
  cases hf : db.status.find? (fun s => sqlEq s.status_name (.text name)) with
  | none =>
    have hall := List.find?_eq_none.mp hf
    refine ⟨?_, fun _ => rfl⟩
    rintro ⟨s, hs, hm⟩
    exact absurd hm (hall s hs)
  | some r =>
    have hrmem := List.mem_of_find?_eq_some hf
    have hrp := List.find?_some hf
    refine ⟨fun _ => ⟨r, hrmem, hrp, rfl⟩, ?_⟩
    intro hall
    rw [hall r hrmem] at hrp
    cases hrp

/-- Witness for C7 on the seeded statuses: `"Diperbarui"` resolves to id 4
and an unknown name returns the `None` sentinel (no exception). -/
theorem get_status_id_total_spec_witness :
    (∃ s ∈ seededDB.status, sqlEq s.status_name (.text "Diperbarui") = true ∧
      get_status_id "Diperbarui" seededDB = some s.status_id) ∧
    get_status_id "no such status" seededDB = none :=
  ⟨(get_status_id_total_spec seededDB "Diperbarui").1
      ⟨⟨4, .text "Diperbarui"⟩, by decide, by decide⟩,
   (get_status_id_total_spec seededDB "no such status").2 (by decide)⟩

/-- Claim C8: when no project row matches `(user_id, project_id)`,
`delete_project` completes without error (it is a total function) and
returns the database completely unchanged — every row of every table. -/
theorem delete_project_no_match_noop (db : DBState) (uid pid : Int)
    (h : ∀ r ∈ db.projects, userProjectMatch uid pid r = false) :
    delete_project uid pid db = db := by
  unfold delete_project
  have hf : db.projects.filter (fun r => !userProjectMatch uid pid r) =
      db.projects :=
    List.filter_eq_self.mpr (fun a ha => by simp [h a ha])
  rw [hf]

/-- Witness for C8: deleting the absent pair `(5, 9)` from `dbC6` leaves
the state exactly as it was. -/
theorem delete_project_no_match_noop_witness :
    delete_project 5 9 dbC6 = dbC6 :=
  delete_project_no_match_noop dbC6 5 9 (by decide)

lemma flatMap_eq_nil_of_forall {α β : Type} (l : List α) (f : α → List β)
    (h : ∀ a ∈ l, f a = []) : l.flatMap f = [] := by
  induction l with
  | nil => rfl
  | cons a t ih =>
    rw [List.flatMap_cons, h a (by simp), List.nil_append]
    exact ih (fun b hb => h b (by simp [hb]))

/-- Claim C10: when no project row bears the requested name, or every
matching project has no `project_skills` association, the join is empty
and `get_project_skills` returns the empty string without raising (the
`.ok` result is the non-raising path; a missing project is not a
`NotFound` error, unlike `get_project_id`). -/
theorem get_project_skills_no_match_empty (db : DBState) (pname : String)
    (h : (∀ p ∈ db.projects, sqlEq p.project_name (.text pname) = false) ∨
         (∀ p ∈ db.projects, sqlEq p.project_name (.text pname) = true →
           ∀ ps ∈ db.project_skills,
             sqlEq ps.project_id (.int p.project_id) = false)) :
    get_project_skills pname db = .ok "" := by
  have hnil : projectSkillNames pname db = [] := by
    unfold projectSkillNames
    rcases h with h | h
    · rw [List.filter_eq_nil_iff.mpr (fun p hp => by simp [h p hp])]
      exact List.flatMap_nil _
    · apply flatMap_eq_nil_of_forall
      intro p hp
      have hpm := List.mem_filter.mp hp
      rw [List.filter_eq_nil_iff.mpr
            (fun ps hps => by simp [h p hpm.1 hpm.2 ps hps])]
      exact List.flatMap_nil _
  unfold get_project_skills
  rw [hnil]
  rfl

/-- Witness for C10: `dbC6` has no project named `"Nada"`, and the lookup
returns the empty string. -/
theorem get_project_skills_no_match_empty_witness :
    get_project_skills "Nada" dbC6 = .ok "" :=
  get_project_skills_no_match_empty dbC6 "Nada" (Or.inl (by decide))

/-! ## Claim C5 -/

/-- Claim C5: for every allow-listed column and values tuple
`(new_value, user_id, project_id)`, a successful `update_projects` touches
nothing but that one column of the project rows matching
`(user_id, project_id)` — and since `project_id` is the primary key, at
most one row matches. Row for row: the other three tables are unchanged,
non-matching project rows are unchanged, and a matching row keeps its
`project_id`, its `user_id` and every allow-listed column other than the
updated one, while the updated column holds the new value. -/
theorem update_projects_frame (db : DBState) (param : String) (v : SQLVal)
    (uid pid : Int) (db' : DBState)
    (hcol : param ∈ allowedCols)
    (hok : update_projects param (v, uid, pid) db = .ok db') :
    db'.skills = db.skills ∧ db'.status = db.status ∧
    db'.project_skills = db.project_skills ∧
    List.Forall₂ (fun r r' =>
      (userProjectMatch uid pid r = false → r' = r) ∧
      (userProjectMatch uid pid r = true →
        r'.project_id = r.project_id ∧ r'.user_id = r.user_id ∧
        getCol param r' = v ∧
        ∀ c ∈ allowedCols, c ≠ param → getCol c r' = getCol c r))
      db.projects db'.projects := by
  unfold update_projects at hok
  rw [if_pos hcol] at hok
  dsimp only at hok
  split at hok
  · cases hok
  · injection hok with hok
    subst hok
    refine ⟨rfl, rfl, rfl, ?_⟩
    rw [List.forall₂_map_right_iff]
    rw [List.forall₂_same]
    intro r _
    constructor
    · intro hfalse
      simp [hfalse]
    · intro htrue
      simp only [htrue, if_true]
      have hcol' := hcol
      simp only [allowedCols, List.mem_cons, List.not_mem_nil, or_false] at hcol'
      rcases hcol' with rfl | rfl | rfl | rfl <;>
        refine ⟨by simp [setCol], by simp [setCol], by simp [setCol, getCol], ?_⟩ <;>
        · intro c hc hne
          simp only [allowedCols, List.mem_cons, List.not_mem_nil, or_false] at hc
          rcases hc with rfl | rfl | rfl | rfl <;>
            first
            | exact absurd rfl hne
            | simp [getCol, setCol]

/-- A database with one project row and a successful single-column update
of its description, instantiating the frame theorem. -/
def dbC5 : DBState :=
  { emptyDB with
      projects := [⟨1, .int 1, .text "P", .text "old", .text "u", .int 2⟩],
      skills := [⟨1, .text "Python"⟩] }

/-- The state `dbC5` after `update_projects('description', ('new', 1, 1))`. -/
def dbC5' : DBState :=
  { dbC5 with
      projects := [⟨1, .int 1, .text "P", .text "new", .text "u", .int 2⟩] }

/-- Witness for C5: the concrete update succeeds and, by the frame
theorem, leaves the skills table (and everything else) unchanged. -/
theorem update_projects_frame_witness :
    update_projects "description" (.text "new", 1, 1) dbC5 = .ok dbC5' ∧
    dbC5'.skills = dbC5.skills ∧ dbC5'.status = dbC5.status :=
  ⟨by decide,
   (update_projects_frame dbC5 "description" (.text "new") 1 1 dbC5'
      (by decide) (by decide)).1,
   (update_projects_frame dbC5 "description" (.text "new") 1 1 dbC5'
      (by decide) (by decide)).2.1⟩
